import Mathlib

/-!
Verification of the post-ingestion event processing orchestrator
(`sentry/tasks/post_process.py`).

The Python module is shallowly embedded as pure state-passing functions.
External collaborators (the Django cache, the redis cluster, the ORM store,
the rule engine, the plugin registry) become explicit inputs and outputs:
cache and redis contents live in a `PState` record threaded through the
pipeline, and every observable action (metric increment, store mutation,
scheduled task, log line, signal) is recorded in an ordered `Effect` list.
Fallible external calls are modelled with `Except String`.
-/

namespace Sentry

/-- Issue ("Group") status, `sentry.models.GroupStatus`. -/
inductive GroupStatus
  | unresolved
  | resolved
  | ignored
  deriving DecidableEq, Repr

/-- A snooze policy attached to a group (`GroupSnooze`).  The validity
predicate `snooze.is_valid(group, test_rates=True)` is an external check
over time windows and rate counters; we embed its outcome as a field. -/
structure GroupSnooze where
  isValidResult : Bool
  deriving DecidableEq, Repr

/-- The mutable Issue ("Group") row as the pipeline sees it: status, the
optional snooze policy, the assignee set (`group.assignee_set`), and the
platform string used by `_capture_stats`. -/
structure Group where
  id : Nat
  project_id : Nat
  status : GroupStatus
  snooze : Option GroupSnooze
  assignees : List Nat
  platform : Option String
  deriving DecidableEq, Repr

/-- The immutable event handed to `post_process_group`. `eventType` is the
result of `event.get_event_type()`; `size` is `event.size`. -/
structure Event where
  project_id : Nat
  event_id : String
  size : Nat
  eventType : String
  deriving DecidableEq, Repr

/-- One live key in the redis cluster used for the dedup lock; `expiresAt`
is the absolute expiry instant (`SET ... ex=ttl` stores `now + ttl`). -/
structure RedisEntry where
  key : String
  expiresAt : Nat
  deriving DecidableEq, Repr

/-- Metric calls issued through `sentry.utils.metrics`. -/
inductive Metric
  | incr (name : String) (platformTag : Option String)
  | timing (name : String) (value : Nat) (platformTag : Option String)
  deriving DecidableEq, Repr

/-- Observable actions of one pipeline invocation, in program order.
`skippedLog`, `logInfo` and `logError` are log lines; everything else is a
store mutation, a metric, or a scheduled/delivered notification. -/
inductive Effect
  | skippedLog (project_id : Nat) (event_id : String) (reason : String)
  | logInfo (msg : String)
  | logError (msg : String)
  | metric (m : Metric)
  | snoozeDeleted (groupId : Nat)
  | statusUpdated (groupId : Nat) (st : GroupStatus)
  | assigned (groupId : Nat) (owner : Nat)
  | ruleCallbackRun
  | hookDelivery (servicehookId : Nat)
  | resourceChange (sender : String) (instanceId : String)
  | pluginPostProcess (slug : String)
  | signalSent
  deriving DecidableEq, Repr

/-- What a Python callable does when invoked: return normally, raise the
designated `PluginError`, or raise any other exception. -/
inductive PyOutcome
  | ok
  | pluginError (msg : String)
  | otherError (msg : String)
  deriving DecidableEq, Repr

/-- Modelled from the spec: `sentry.utils.safe.safe_execute` is not under
`src/`; per the spec every isolated invocation has a designated "expected"
error kind treated as a normal, loggable failure, and any other exception
is also caught and logged, never propagated.  `expectPluginError` records
whether `PluginError` was passed in `expected_errors`.  The result is the
log effects of the call; no exception escapes. -/
def safe_execute (expectPluginError : Bool) (o : PyOutcome) : List Effect :=
  match o with
  | .ok => []
  | .pluginError msg =>
      if expectPluginError then [Effect.logInfo msg] else [Effect.logError msg]
  | .otherError msg => [Effect.logError msg]

/-- `platform.split('-', 1)[0].split('_', 1)[0]`: the platform string up to
the first `-`, then up to the first `_`. -/
def coarse_platform (p : String) : String :=
  (((p.splitOn "-").headD "").splitOn "_").headD ""

/-- `_capture_stats(event, is_new)`.  `group_platform` is `event.group.platform`;
`if not platform: return` is true both for a missing and for an empty string. -/
def _capture_stats (group_platform : Option String) (size : Nat) (is_new : Bool) :
    List Effect :=
  match group_platform with
  | none => []
  | some p =>
    if p = "" then []
    else
      let platform := coarse_platform p
      (if is_new then [Effect.metric (.incr "events.unique" (some platform))] else [])
        ++ [Effect.metric (.incr "events.processed" (some platform)),
            Effect.metric (.incr (String.append "events.processed." platform) none),
            Effect.metric (.timing "events.size.data" size (some platform))]

/-- `process_snoozes(group)`: no snooze row (`GroupSnooze.DoesNotExist`) or a
still-valid snooze returns `False` untouched; an invalid snooze is deleted,
the group status is updated to `UNRESOLVED`, and `True` is returned.
Result: (updated group, has_reappeared, store effects). -/
def process_snoozes (group : Group) : Group × Bool × List Effect :=
  match group.snooze with
  | none => (group, false, [])
  | some snooze =>
    if !snooze.isValidResult then
      ({ group with snooze := none, status := .unresolved },
       true,
       [Effect.snoozeDeleted group.id,
        Effect.statusUpdated group.id .unresolved])
    else
      (group, false, [])

/-- `handle_owner_assignment(project, group, event)`: return immediately if
`group.assignee_set.exists()`; otherwise consult
`ProjectOwnership.get_autoassign_owner` (an external rule evaluation whose
result we take as the input `autoassign_owner`) and assign on a match. -/
def handle_owner_assignment (group : Group) (autoassign_owner : Option Nat) :
    Group × List Effect :=
  if !group.assignees.isEmpty then
    (group, [])
  else
    match autoassign_owner with
    | some owner =>
        ({ group with assignees := [owner] }, [Effect.assigned group.id owner])
    | none => (group, [])

/-- The dedup key `pp:{projectId}/{eventId}`. -/
def dedup_key (project_id : Nat) (event_id : String) : String :=
  String.append (String.append (String.append "pp:" (toString project_id)) "/") event_id

/-- Is `key` present and unexpired at instant `now`? -/
def keyLive (entries : List RedisEntry) (now : Nat) (key : String) : Bool :=
  entries.any (fun e => e.key == key && decide (now < e.expiresAt))

/-- Redis `SET key value ex=ttl nx=True`: succeeds (returns `true`) only if
no live entry for `key` exists, installing an entry expiring at `now + ttl`. -/
def redis_set_nx (entries : List RedisEntry) (now : Nat) (key : String) (ttl : Nat) :
    List RedisEntry × Bool :=
  if keyLive entries now key then
    (entries, false)
  else
    (⟨key, now + ttl⟩ :: entries.filter (fun e => !(e.key == key)), true)

/-- `check_event_already_post_processed(event)`.  When no
`SENTRY_POST_PROCESSING_LOCK_REDIS_CLUSTER` is configured it returns `None`,
which the caller treats as "not a duplicate".  Otherwise it issues the
conditional set; there is no exception handling around the redis call, so an
unreachable cluster propagates as an error.  Returns `not result` of the set. -/
def check_event_already_post_processed (clusterConfigured redisReachable : Bool)
    (redis : List RedisEntry) (now : Nat) (event : Event) :
    Except String (List RedisEntry × Bool) :=
  if !clusterConfigured then
    .ok (redis, false)
  else if !redisReachable then
    .error "redis connection error"
  else
    let r := redis_set_nx redis now (dedup_key event.project_id event.event_id) (60 * 60)
    .ok (r.1, !r.2)

/-- `_get_service_hooks(project_id)`: return the cached
`(hook id, events)` list when present, else read the `ServiceHook` store and
cache the result (TTL 60s; the TTL bookkeeping of the Django cache is outside
the claims and not tracked).  Result: (hooks, updated cache slot). -/
def _get_service_hooks (cached : Option (List (Nat × List String)))
    (store : List (Nat × List String)) :
    List (Nat × List String) × Option (List (Nat × List String)) :=
  match cached with
  | some result => (result, some result)
  | none => (store, some store)

/-- `_should_send_error_created_hooks(project)`.  In sampling mode the
decision is `random.random() < sample_rate` (the code returns `False` when
`random.random() >= rate`) and the cache slot is neither read nor written.
Otherwise: a cached 0/1 decides; on a miss the organization feature gate is
checked (gate off caches 0 and returns `False`), else the store is asked
whether any hook subscribes to `error.created` and the boolean is cached.
Result: (decision, updated cache slot). -/
def _should_send_error_created_hooks (use_sampling : Bool) (sample_rate : Rat)
    (random_draw : Rat) (cached : Option Nat)
    (orgHasEventHooksFeature hasErrorCreatedHook : Bool) :
    Bool × Option Nat :=
  if use_sampling then
    (decide (random_draw < sample_rate), cached)
  else
    match cached with
    | some v => (v != 0, some v)
    | none =>
      if !orgHasEventHooksFeature then
        (false, some 0)
      else
        (hasErrorCreatedHook, some (if hasErrorCreatedHook then 1 else 0))

/-- One iteration of the rule-evaluation loop of `post_process_group`:
`has_alert = True`, then `safe_execute(callback, event, futures)` (no
`expected_errors`). -/
def run_rule_callbacks_step (acc : Bool × List Effect) (cb : PyOutcome) :
    Bool × List Effect :=
  (true, acc.2 ++ Effect.ruleCallbackRun :: safe_execute false cb)

/-- The rule-evaluation loop of `post_process_group`: `has_alert` starts
`False`, flips to `True` for every `(callback, futures)` pair yielded by
`rp.apply()`, and each callback is run under `safe_execute` (no
`expected_errors`).  `callbacks` is the behavior of each yielded callback. -/
def run_rule_callbacks (callbacks : List PyOutcome) : Bool × List Effect :=
  callbacks.foldl run_rule_callbacks_step (false, [])

/-- The service-hook fanout block: only under the `projects:servicehooks`
feature; `allowed_events` always holds `event.created` and holds
`event.alert` iff `has_alert`; each hook whose subscribed events meet the
allowed set gets a `process_service_hook.delay` task. -/
def service_hook_stage (feature has_alert : Bool)
    (cached : Option (List (Nat × List String)))
    (store : List (Nat × List String)) :
    List Effect × Option (List (Nat × List String)) :=
  if feature then
    let allowed_events := "event.created" :: (if has_alert then ["event.alert"] else [])
    if !allowed_events.isEmpty then
      let r := _get_service_hooks cached store
      ((r.1.filter (fun h => h.2.any (fun e => allowed_events.contains e))).map
          (fun h => Effect.hookDelivery h.1),
       r.2)
    else
      ([], cached)
  else
    ([], cached)

/-- Modelled from the spec: the plugin registry (`sentry.plugins.plugins`)
is not under `src/`; per the spec it is a registry mapping stable string
identifiers to plugin objects, lookup being a mapping read — so `get` on an
unregistered slug raises (a missing-key error), while `for_project`
enumerates the registered project plugins.  Each plugin is its slug paired
with what its `post_process` does when invoked. -/
def plugins_get (registry : List (String × PyOutcome)) (slug : String) :
    Except String PyOutcome :=
  match registry.find? (fun p => p.1 == slug) with
  | some p => .ok p.2
  | none => .error (String.append "KeyError: " slug)

/-- `plugin_post_process_group(plugin_slug, event, **kwargs)`: the registry
lookup `plugins.get(plugin_slug)` runs bare; only the `plugin.post_process`
call itself is wrapped in `safe_execute` with `expected_errors=(PluginError,)`. -/
def plugin_post_process_group (registry : List (String × PyOutcome)) (slug : String) :
    Except String (List Effect) :=
  match plugins_get registry slug with
  | .error msg => .error msg
  | .ok behavior =>
      .ok (Effect.pluginPostProcess slug :: safe_execute true behavior)

/-- One iteration of the plugin loop: a raised error anywhere would stop the
loop (modelled by propagating `.error`), otherwise the effects of
`plugin_post_process_group` for this plugin's slug are appended. -/
def plugin_fanout_step (registry : List (String × PyOutcome))
    (acc : Except String (List Effect)) (p : String × PyOutcome) :
    Except String (List Effect) :=
  match acc with
  | .error msg => .error msg
  | .ok effs =>
    match plugin_post_process_group registry p.1 with
    | .error msg => .error msg
    | .ok more => .ok (effs ++ more)

/-- The plugin loop of `post_process_group`: `plugin_post_process_group` is
invoked inline for every plugin in `plugins.for_project(event.project)`,
which enumerates exactly the registered project plugins. -/
def plugin_fanout (registry : List (String × PyOutcome)) :
    Except String (List Effect) :=
  registry.foldl (plugin_fanout_step registry) (.ok [])

/-- The external collaborators of one `post_process_group` invocation:
configuration flags, feature-gate answers, the `ServiceHook` store rows, the
result of `rp.apply()` (one behavior per yielded callback), the
`ProjectOwnership.get_autoassign_owner` answer, the sampling options and the
value drawn from `random.random()`, and the registered project plugins. -/
structure Env where
  clusterConfigured : Bool
  redisReachable : Bool
  servicehooksFeature : Bool
  serviceHooks : List (Nat × List String)
  ruleCallbacks : List PyOutcome
  autoassign_owner : Option Nat
  useErrorHookSampling : Bool
  errorHookSampleRate : Rat
  randomDraw : Rat
  orgHasEventHooksFeature : Bool
  orgHasErrorCreatedHook : Bool
  plugins : List (String × PyOutcome)

/-- Mutable external state threaded through an invocation: the redis dedup
keys, the authoritative Issue row (state rebinding re-reads it from the
store, so the pipeline works on this row, not on a stale snapshot), and the
two Django-cache slots used by this module. -/
structure PState where
  redis : List RedisEntry
  group : Group
  serviceHooksCached : Option (List (Nat × List String))
  errorHookCached : Option Nat
  deriving DecidableEq, Repr

/-- Final state plus the ordered effect trace of one invocation. -/
structure PipelineResult where
  state : PState
  effects : List Effect
  deriving DecidableEq, Repr

/-- `post_process_group(event, is_new, is_regression, is_sample,
is_new_group_environment, **kwargs)`: dedup guard, skip-and-log on a
duplicate; otherwise state rebinding, `_capture_stats`, `process_snoozes`,
`handle_owner_assignment`, the rule loop, the service-hook fanout, the
Error resource-change (guarded by `event.get_event_type() == 'error'`
short-circuiting before `_should_send_error_created_hooks`), the Group
resource-change on `is_new`, the plugin loop, and the `event_processed`
signal. -/
def post_process_group (env : Env) (now : Nat) (st : PState) (event : Event)
    (is_new is_regression is_sample is_new_group_environment : Bool) :
    Except String PipelineResult :=
  match check_event_already_post_processed env.clusterConfigured env.redisReachable
      st.redis now event with
  | .error msg => .error msg
  | .ok (redis1, isDup) =>
    if isDup then
      .ok ⟨{ st with redis := redis1 },
           [Effect.skippedLog event.project_id event.event_id "duplicate"]⟩
    else
      let statsEffs := _capture_stats st.group.platform event.size is_new
      let snoozeRes := process_snoozes st.group
      let has_reappeared := snoozeRes.2.1
      let ownRes := handle_owner_assignment snoozeRes.1 env.autoassign_owner
      let ruleRes := run_rule_callbacks env.ruleCallbacks
      let has_alert := ruleRes.1
      let hookRes := service_hook_stage env.servicehooksFeature has_alert
          st.serviceHooksCached env.serviceHooks
      let errRes :=
        if event.eventType == "error" then
          _should_send_error_created_hooks env.useErrorHookSampling
            env.errorHookSampleRate env.randomDraw st.errorHookCached
            env.orgHasEventHooksFeature env.orgHasErrorCreatedHook
        else
          (false, st.errorHookCached)
      let errEffs :=
        if errRes.1 then [Effect.resourceChange "Error" event.event_id] else []
      let groupEffs :=
        if is_new then [Effect.resourceChange "Group" (toString st.group.id)] else []
      match plugin_fanout env.plugins with
      | .error msg => .error msg
      | .ok pluginEffs =>
        .ok ⟨{ redis := redis1,
               group := ownRes.1,
               serviceHooksCached := hookRes.2,
               errorHookCached := errRes.2 },
             statsEffs ++ snoozeRes.2.2 ++ ownRes.2 ++ ruleRes.2 ++ hookRes.1
               ++ errEffs ++ groupEffs ++ pluginEffs ++ [Effect.signalSent]⟩

/-- Effects other than log lines: store mutations, metric calls, scheduled
notifications, plugin/callback invocations, the completion signal. -/
def isSideEffect : Effect → Bool
  | .skippedLog _ _ _ => false
  | .logInfo _ => false
  | .logError _ => false
  | _ => true

/-- A concrete Issue row used to instantiate theorems: resolved, carrying an
invalid snooze, unassigned, platform `python`. -/
def sampleGroup : Group :=
  ⟨1, 42, .resolved, some ⟨false⟩, [], some "python"⟩

/-- A concrete event of project 42. -/
def sampleEvent : Event :=
  ⟨42, "abc", 10, "error"⟩

/-- A concrete initial external state: empty redis, empty caches. -/
def sampleState : PState :=
  ⟨[], sampleGroup, none, none⟩

/-- A concrete environment: dedup cluster configured and reachable, service
hooks enabled, one hook subscribed to `event.created`, one rule callback,
an auto-assign owner, sampling off, one plugin. -/
def sampleEnv : Env :=
  ⟨true, true, true, [(7, ["event.created"])], [.ok], some 5,
   false, 0, 0, true, true, [("notify", .ok)]⟩

/-! ## Helper lemmas shared by the claim theorems -/

/-- The rule loop's flag after folding: true as soon as one callback was
yielded, whatever the starting accumulator. -/
theorem rule_fold_fst (cbs : List PyOutcome) (acc : Bool × List Effect) :
    (cbs.foldl run_rule_callbacks_step acc).1 = (acc.1 || !cbs.isEmpty) := by
  induction cbs generalizing acc with
  | nil => simp
  | cons c cs ih => simp [run_rule_callbacks_step, ih]

/-- The rule loop's effect trace after folding. -/
theorem rule_fold_effects (cbs : List PyOutcome) (acc : Bool × List Effect) :
    (cbs.foldl run_rule_callbacks_step acc).2 =
      acc.2 ++ cbs.flatMap (fun cb => Effect.ruleCallbackRun :: safe_execute false cb) := by
  induction cbs generalizing acc with
  | nil => simp
  | cons c cs ih => simp [run_rule_callbacks_step, ih]

/-- `has_alert` is true exactly when the rule engine yielded a callback. -/
theorem run_rule_callbacks_fst (cbs : List PyOutcome) :
    (run_rule_callbacks cbs).1 = !cbs.isEmpty := by
  rw [run_rule_callbacks, rule_fold_fst]
  simp

/-- `safe_execute` only produces log lines, never a side effect. -/
theorem safe_execute_filter (b : Bool) (o : PyOutcome) :
    (safe_execute b o).filter isSideEffect = [] := by
  cases o <;> cases b <;> simp [safe_execute, isSideEffect]

/-- Side-effect projection of the rule loop's flattened trace. -/
theorem rule_flat_filter (cbs : List PyOutcome) :
    (cbs.flatMap (fun cb => Effect.ruleCallbackRun :: safe_execute false cb)).filter
        isSideEffect =
      List.replicate cbs.length Effect.ruleCallbackRun := by
  induction cbs with
  | nil => simp
  | cons c cs ih =>
      simp [List.replicate_succ, isSideEffect, safe_execute_filter, ih]

/-- Side-effect projection of the rule loop: one invocation marker per
yielded callback, independent of what each callback does. -/
theorem rule_effects_filter (cbs : List PyOutcome) :
    (run_rule_callbacks cbs).2.filter isSideEffect =
      List.replicate cbs.length Effect.ruleCallbackRun := by
  rw [run_rule_callbacks, rule_fold_effects]
  simp [rule_flat_filter]

/-- Looking up the slug of a registered plugin always succeeds. -/
theorem plugins_get_self (R : List (String × PyOutcome)) (p : String × PyOutcome)
    (hp : p ∈ R) : ∃ b, plugins_get R p.1 = .ok b := by
  have hsome : (R.find? (fun q => q.1 == p.1)).isSome := by
    rw [List.find?_isSome]
    exact ⟨p, hp, by simp⟩
  match h : R.find? (fun q => q.1 == p.1) with
  | some q => exact ⟨q.2, by rw [plugins_get, h]⟩
  | none => rw [h] at hsome; simp at hsome

/-- The plugin loop over a sub-list of the registry succeeds and its
side-effect projection is one invocation marker per plugin. -/
theorem plugin_fanout_aux (R l : List (String × PyOutcome)) (acc : List Effect)
    (hsub : ∀ p ∈ l, p ∈ R) :
    ∃ effs, l.foldl (plugin_fanout_step R) (.ok acc) = .ok effs ∧
      effs.filter isSideEffect =
        acc.filter isSideEffect ++ l.map (fun p => Effect.pluginPostProcess p.1) := by
  induction l generalizing acc with
  | nil => exact ⟨acc, rfl, by simp⟩
  | cons p ps ih =>
      obtain ⟨b, hb⟩ := plugins_get_self R p (hsub p (by simp))
      have step : plugin_fanout_step R (.ok acc) p =
          .ok (acc ++ Effect.pluginPostProcess p.1 :: safe_execute true b) := by
        simp [plugin_fanout_step, plugin_post_process_group, hb]
      obtain ⟨effs, h1, h2⟩ := ih (acc ++ Effect.pluginPostProcess p.1 :: safe_execute true b)
        (fun q hq => hsub q (by simp [hq]))
      refine ⟨effs, ?_, ?_⟩
      · rw [List.foldl_cons, step]; exact h1
      · rw [h2]
        simp [isSideEffect, safe_execute_filter]

/-- The plugin loop over the registry never raises, and invokes every
registered plugin exactly once, whatever the plugins do. -/
theorem plugin_fanout_ok (R : List (String × PyOutcome)) :
    ∃ effs, plugin_fanout R = .ok effs ∧
      effs.filter isSideEffect = R.map (fun p => Effect.pluginPostProcess p.1) := by
  obtain ⟨effs, h1, h2⟩ := plugin_fanout_aux R R [] (fun p hp => hp)
  exact ⟨effs, h1, by simpa using h2⟩

/-- The dedup guard on a fresh key: the key is installed with a one-hour
expiry and the event is not reported as a duplicate. -/
theorem check_fresh (redis : List RedisEntry) (now : Nat) (event : Event)
    (h : keyLive redis now (dedup_key event.project_id event.event_id) = false) :
    check_event_already_post_processed true true redis now event =
      .ok (⟨dedup_key event.project_id event.event_id, now + 60 * 60⟩ ::
            redis.filter (fun e => !(e.key == dedup_key event.project_id event.event_id)),
           false) := by
  simp [check_event_already_post_processed, redis_set_nx, h]

/-- The dedup guard on a live key: the store is untouched and the event is
reported as a duplicate. -/
theorem check_dup (redis : List RedisEntry) (now : Nat) (event : Event)
    (h : keyLive redis now (dedup_key event.project_id event.event_id) = true) :
    check_event_already_post_processed true true redis now event = .ok (redis, true) := by
  simp [check_event_already_post_processed, redis_set_nx, h]

/-- Unfolding of the duplicate branch of the pipeline. -/
theorem post_process_group_dup (env : Env) (now : Nat) (st : PState) (event : Event)
    (i r s g : Bool) (redis1 : List RedisEntry)
    (hchk : check_event_already_post_processed env.clusterConfigured env.redisReachable
      st.redis now event = .ok (redis1, true)) :
    post_process_group env now st event i r s g =
      .ok ⟨{ st with redis := redis1 },
           [Effect.skippedLog event.project_id event.event_id "duplicate"]⟩ := by
  rw [post_process_group, hchk]
  simp

/-- Unfolding of the non-duplicate run of the pipeline: final state and the
ordered effect trace of all stages, given the plugin loop's result. -/
theorem post_process_group_proceed (env : Env) (now : Nat) (st : PState) (event : Event)
    (i r s g : Bool) (redis1 : List RedisEntry) (pluginEffs : List Effect)
    (hchk : check_event_already_post_processed env.clusterConfigured env.redisReachable
      st.redis now event = .ok (redis1, false))
    (hpl : plugin_fanout env.plugins = .ok pluginEffs) :
    post_process_group env now st event i r s g =
      .ok ⟨⟨redis1,
            (handle_owner_assignment (process_snoozes st.group).1 env.autoassign_owner).1,
            (service_hook_stage env.servicehooksFeature (run_rule_callbacks env.ruleCallbacks).1
              st.serviceHooksCached env.serviceHooks).2,
            (if event.eventType == "error" then
              _should_send_error_created_hooks env.useErrorHookSampling env.errorHookSampleRate
                env.randomDraw st.errorHookCached env.orgHasEventHooksFeature
                env.orgHasErrorCreatedHook
             else (false, st.errorHookCached)).2⟩,
           _capture_stats st.group.platform event.size i
             ++ (process_snoozes st.group).2.2
             ++ (handle_owner_assignment (process_snoozes st.group).1 env.autoassign_owner).2
             ++ (run_rule_callbacks env.ruleCallbacks).2
             ++ (service_hook_stage env.servicehooksFeature
                  (run_rule_callbacks env.ruleCallbacks).1
                  st.serviceHooksCached env.serviceHooks).1
             ++ (if (if event.eventType == "error" then
                      _should_send_error_created_hooks env.useErrorHookSampling
                        env.errorHookSampleRate env.randomDraw st.errorHookCached
                        env.orgHasEventHooksFeature env.orgHasErrorCreatedHook
                     else (false, st.errorHookCached)).1
                 then [Effect.resourceChange "Error" event.event_id] else [])
             ++ (if i then [Effect.resourceChange "Group" (toString st.group.id)] else [])
             ++ pluginEffs ++ [Effect.signalSent]⟩ := by
  rw [post_process_group, hchk]
  simp [hpl]

/-- `safe_execute` never emits a resource-change notification. -/
theorem safe_execute_no_resource (b : Bool) (o : PyOutcome) (sender iid : String) :
    Effect.resourceChange sender iid ∉ safe_execute b o := by
  cases o <;> cases b <;> simp [safe_execute]

/-- The metrics stage never emits a resource-change notification. -/
theorem capture_stats_no_resource (p : Option String) (size : Nat) (n : Bool)
    (sender iid : String) :
    Effect.resourceChange sender iid ∉ _capture_stats p size n := by
  cases p with
  | none => simp [_capture_stats]
  | some s => by_cases hs : s = "" <;> cases n <;> simp [_capture_stats, hs]

/-- The snooze stage never emits a resource-change notification. -/
theorem snooze_no_resource (g : Group) (sender iid : String) :
    Effect.resourceChange sender iid ∉ (process_snoozes g).2.2 := by
  cases hsn : g.snooze with
  | none => simp [process_snoozes, hsn]
  | some s => cases hv : s.isValidResult <;> simp [process_snoozes, hsn, hv]

/-- The ownership stage never emits a resource-change notification. -/
theorem owner_no_resource (g : Group) (o : Option Nat) (sender iid : String) :
    Effect.resourceChange sender iid ∉ (handle_owner_assignment g o).2 := by
  cases hl : g.assignees <;> cases o <;> simp [handle_owner_assignment, hl]

/-- The rule loop never emits a resource-change notification. -/
theorem rule_no_resource (cbs : List PyOutcome) (sender iid : String) :
    Effect.resourceChange sender iid ∉ (run_rule_callbacks cbs).2 := by
  intro h
  rw [run_rule_callbacks, rule_fold_effects] at h
  simp only [List.nil_append, List.mem_flatMap, List.mem_cons] at h
  obtain ⟨cb, _, hmem | hmem⟩ := h
  · exact absurd hmem (by simp)
  · exact safe_execute_no_resource false cb sender iid hmem

/-- The hook fanout never emits a resource-change notification. -/
theorem hook_stage_no_resource (f a : Bool) (c : Option (List (Nat × List String)))
    (s : List (Nat × List String)) (sender iid : String) :
    Effect.resourceChange sender iid ∉ (service_hook_stage f a c s).1 := by
  cases f <;> simp [service_hook_stage]

/-- Effects of the plugin loop are invocation markers and log lines; no
resource-change notification comes from it. -/
theorem plugin_effs_no_resource (R : List (String × PyOutcome)) (pluginEffs : List Effect)
    (h : plugin_fanout R = .ok pluginEffs) (sender iid : String) :
    Effect.resourceChange sender iid ∉ pluginEffs := by
  obtain ⟨effs, h1, h2⟩ := plugin_fanout_ok R
  rw [h1] at h
  injection h with h
  subst h
  intro hmem
  have hside : Effect.resourceChange sender iid ∈ effs.filter isSideEffect := by
    simp [List.mem_filter, hmem, isSideEffect]
  rw [h2] at hside
  simp at hside

/-- The metrics stage emits side effects only. -/
theorem capture_stats_filter (p : Option String) (size : Nat) (n : Bool) :
    (_capture_stats p size n).filter isSideEffect = _capture_stats p size n := by
  cases p with
  | none => simp [_capture_stats]
  | some s =>
      by_cases hs : s = "" <;> cases n <;> simp [_capture_stats, hs, isSideEffect]

/-- The snooze stage emits side effects only. -/
theorem snooze_filter (g : Group) :
    ((process_snoozes g).2.2).filter isSideEffect = (process_snoozes g).2.2 := by
  cases hsn : g.snooze with
  | none => simp [process_snoozes, hsn]
  | some s =>
      cases hv : s.isValidResult <;> simp [process_snoozes, hsn, hv, isSideEffect]

/-- The ownership stage emits side effects only. -/
theorem owner_filter (g : Group) (o : Option Nat) :
    ((handle_owner_assignment g o).2).filter isSideEffect =
      (handle_owner_assignment g o).2 := by
  cases hl : g.assignees <;> cases o <;> simp [handle_owner_assignment, hl, isSideEffect]

/-- The hook fanout emits side effects only. -/
theorem hook_filter (f a : Bool) (c : Option (List (Nat × List String)))
    (s : List (Nat × List String)) :
    ((service_hook_stage f a c s).1).filter isSideEffect =
      (service_hook_stage f a c s).1 := by
  cases f with
  | false => simp [service_hook_stage]
  | true =>
      rw [List.filter_eq_self]
      intro e he
      rw [service_hook_stage] at he
      simp only [if_true, List.isEmpty_cons, Bool.not_false, ite_true,
        eq_self_iff_true, List.mem_map] at he
      obtain ⟨h, _, rfl⟩ := he
      rfl

/-! ## Claim theorems -/

/-- C2: `process_snoozes` returns `false` and mutates nothing when the issue
has no snooze policy; returns `false` leaving policy and issue unchanged
when the policy's validity predicate still holds; and when the policy is
invalid it deletes the policy, sets the status to Unresolved whatever the
prior status was, and returns `hasReappeared = true`. -/
theorem snooze_evaluation_correct (g : Group) :
    (g.snooze = none → process_snoozes g = (g, false, [])) ∧
    (∀ s, g.snooze = some s → s.isValidResult = true →
      process_snoozes g = (g, false, [])) ∧
    (∀ s, g.snooze = some s → s.isValidResult = false →
      process_snoozes g =
        ({ g with snooze := none, status := GroupStatus.unresolved }, true,
         [Effect.snoozeDeleted g.id, Effect.statusUpdated g.id GroupStatus.unresolved])) := by
  refine ⟨fun h => by simp [process_snoozes, h],
          fun s hs hv => by simp [process_snoozes, hs, hv],
          fun s hs hv => by simp [process_snoozes, hs, hv]⟩

/-- Witness for C2: a concrete resolved issue with an invalid snooze is
flipped to Unresolved, the snooze removed, and `true` returned. -/
theorem snooze_evaluation_correct_witness :
    process_snoozes sampleGroup =
      ({ sampleGroup with snooze := none, status := GroupStatus.unresolved }, true,
       [Effect.snoozeDeleted 1, Effect.statusUpdated 1 GroupStatus.unresolved]) := by
  have h := (snooze_evaluation_correct sampleGroup).2.2 ⟨false⟩ rfl rfl
  simpa [sampleGroup] using h

/-- C9: the ownership stage never changes an already-assigned issue — for
any outcome of the ownership-rule evaluation the issue and effect trace are
untouched — and an unassigned issue is assigned only when a rule matched. -/
theorem ownership_monotone (g : Group) (rules_owner : Option Nat) :
    (g.assignees ≠ [] → handle_owner_assignment g rules_owner = (g, [])) ∧
    (handle_owner_assignment g none = (g, [])) ∧
    (∀ owner, g.assignees = [] →
      handle_owner_assignment g (some owner) =
        ({ g with assignees := [owner] }, [Effect.assigned g.id owner])) := by
  refine ⟨fun h => ?_, ?_, fun owner h => by simp [handle_owner_assignment, h]⟩
  · cases hl : g.assignees with
    | nil => exact absurd hl h
    | cons a tl => cases rules_owner <;> simp [handle_owner_assignment, hl]
  · cases hl : g.assignees <;> simp [handle_owner_assignment, hl]

/-- Witness for C9: an issue already assigned to user 9 is untouched even
though the ownership rules would name user 5. -/
theorem ownership_monotone_witness :
    handle_owner_assignment ⟨1, 42, GroupStatus.resolved, none, [9], none⟩ (some 5) =
      (⟨1, 42, GroupStatus.resolved, none, [9], none⟩, []) :=
  (ownership_monotone ⟨1, 42, GroupStatus.resolved, none, [9], none⟩ (some 5)).1 (by simp)

/-- C4: after the rule loop, `has_alert` is true iff the rule engine
yielded at least one `(callback, futures)` pair; the flag depends only on
how many callbacks were yielded, not on whether running them succeeds or
raises; zero callbacks leave it false. -/
theorem has_alert_iff_callback_yielded (cbs : List PyOutcome) :
    ((run_rule_callbacks cbs).1 = true ↔ cbs ≠ []) ∧
    (∀ cbs2 : List PyOutcome, cbs.length = cbs2.length →
      (run_rule_callbacks cbs).1 = (run_rule_callbacks cbs2).1) ∧
    (run_rule_callbacks []).1 = false := by
  refine ⟨?_, ?_, rfl⟩
  · rw [run_rule_callbacks_fst]
    cases cbs <;> simp
  · intro cbs2 hlen
    rw [run_rule_callbacks_fst, run_rule_callbacks_fst]
    cases cbs <;> cases cbs2 <;> simp_all

/-- Witness for C4: a single raising callback still sets `has_alert`, and
the flag agrees with that of a single succeeding callback. -/
theorem has_alert_iff_callback_yielded_witness :
    (run_rule_callbacks [PyOutcome.otherError "boom"]).1 = true ∧
    (run_rule_callbacks [PyOutcome.otherError "boom"]).1 =
      (run_rule_callbacks [PyOutcome.ok]).1 :=
  ⟨(has_alert_iff_callback_yielded [PyOutcome.otherError "boom"]).1.mpr (by simp),
   (has_alert_iff_callback_yielded [PyOutcome.otherError "boom"]).2.1 [PyOutcome.ok] rfl⟩

/-- C7 counterexample: an event whose issue carries no platform string
produces no metric at all — in particular `events.processed` is not
incremented — so the stage does not increment it for every event. -/
theorem capture_stats_missing_platform_cex :
    _capture_stats none 10 true = [] := rfl

/-- C7 (amended): for every event whose issue has a non-empty platform
string, `_capture_stats` emits the `events.processed` counter, the
per-platform processed counter and the event-size timing sample, tagged
with the coarse platform (the string cut at the first `-`, then at the
first `_`), and emits `events.unique` iff `is_new`; with a missing or empty
platform it emits nothing. -/
theorem capture_stats_correct (p : String) (size : Nat) (is_new : Bool) (hp : p ≠ "") :
    (Effect.metric (.incr "events.processed" (some (coarse_platform p))) ∈
        _capture_stats (some p) size is_new) ∧
    (Effect.metric (.incr (String.append "events.processed." (coarse_platform p)) none) ∈
        _capture_stats (some p) size is_new) ∧
    (Effect.metric (.timing "events.size.data" size (some (coarse_platform p))) ∈
        _capture_stats (some p) size is_new) ∧
    (Effect.metric (.incr "events.unique" (some (coarse_platform p))) ∈
        _capture_stats (some p) size is_new ↔ is_new = true) ∧
    _capture_stats none size is_new = [] ∧
    _capture_stats (some "") size is_new = [] := by
  cases is_new <;> simp [_capture_stats, hp]

/-- Witness for C7 at platform `python-flask_app`: the coarse tag is
`python` and the processed counter is emitted. -/
theorem capture_stats_correct_witness :
    Effect.metric (.incr "events.processed" (some (coarse_platform "python-flask_app"))) ∈
      _capture_stats (some "python-flask_app") 10 true :=
  (capture_stats_correct "python-flask_app" 10 true (by decide)).1

/-- C10: `plugin_post_process_group` runs the registry lookup outside the
isolation wrapper: a slug missing from the registry raises out of the entry
point, while a registered plugin is invoked under `safe_execute` and the
entry point returns normally whatever the plugin raises. -/
theorem plugin_lookup_unprotected (registry : List (String × PyOutcome)) (slug : String)
    (h : ∀ p ∈ registry, p.1 ≠ slug) :
    (plugin_post_process_group registry slug =
      .error (String.append "KeyError: " slug)) ∧
    (∀ behavior : PyOutcome,
      plugin_post_process_group ((slug, behavior) :: registry) slug =
        .ok (Effect.pluginPostProcess slug :: safe_execute true behavior)) := by
  constructor
  · have hfind : registry.find? (fun p => p.1 == slug) = none := by
      rw [List.find?_eq_none]
      intro p hp
      simp [h p hp]
    simp [plugin_post_process_group, plugins_get, hfind]
  · intro behavior
    simp [plugin_post_process_group, plugins_get]

/-- A subscription meets the allowed set iff it holds `event.created`, or
`event.alert` while `has_alert` is set. -/
theorem allowed_any_eq (has_alert : Bool) (l : List String) :
    (l.any (fun e =>
        ("event.created" :: (if has_alert then ["event.alert"] else [])).contains e)) =
      (l.contains "event.created" || (has_alert && l.contains "event.alert")) := by
  rw [Bool.eq_iff_iff]
  cases has_alert <;> simp [List.any_eq_true, List.elem_iff]
  constructor
  · rintro ⟨e, he, rfl | rfl⟩
    · exact Or.inl he
    · exact Or.inr he
  · rintro (he | he)
    · exact ⟨_, he, Or.inl rfl⟩
    · exact ⟨_, he, Or.inr rfl⟩

/-- `List.filter_congr` specialised to the allowed-set predicate. -/
theorem filter_allowed (has_alert : Bool) (hooks : List (Nat × List String)) :
    hooks.filter (fun h => h.2.any (fun e =>
        ("event.created" :: (if has_alert then ["event.alert"] else [])).contains e)) =
      hooks.filter (fun h => h.2.contains "event.created"
        || (has_alert && h.2.contains "event.alert")) :=
  List.filter_congr (fun h _ => allowed_any_eq has_alert h.2)

/-- C3: with the service-hooks capability enabled, the allowed event-type
set is exactly `event.created` plus `event.alert` iff `has_alert`; a
delivery task is scheduled for exactly the registered hooks whose
subscribed set meets it.  Hence an `event.alert`-only hook is dispatched
iff `has_alert`, and an `event.created`-only hook is always dispatched. -/
theorem service_hook_fanout_correct (has_alert : Bool)
    (cached : Option (List (Nat × List String))) (store : List (Nat × List String))
    (hid : Nat) :
    ((service_hook_stage true has_alert cached store).1 =
      ((_get_service_hooks cached store).1.filter
          (fun h => h.2.contains "event.created"
            || (has_alert && h.2.contains "event.alert"))).map
        (fun h => Effect.hookDelivery h.1)) ∧
    ((service_hook_stage true has_alert none [(hid, ["event.alert"])]).1 =
      if has_alert then [Effect.hookDelivery hid] else []) ∧
    ((service_hook_stage true has_alert none [(hid, ["event.created"])]).1 =
      [Effect.hookDelivery hid]) := by
  have hmain : ∀ c s, (service_hook_stage true has_alert c s).1 =
      ((_get_service_hooks c s).1.filter
          (fun h => h.2.contains "event.created"
            || (has_alert && h.2.contains "event.alert"))).map
        (fun h => Effect.hookDelivery h.1) := by
    intro c s
    simp only [service_hook_stage, List.isEmpty_cons, Bool.not_false, if_true,
      eq_self_iff_true, ite_true]
    rw [filter_allowed]
  refine ⟨hmain cached store, ?_, ?_⟩
  · rw [hmain]
    cases has_alert <;> simp [_get_service_hooks, List.filter]
  · rw [hmain]
    cases has_alert <;> simp [_get_service_hooks, List.filter]

/-- Witness for C3: with one `event.alert`-only hook and one
`event.created`-only hook and no alert fired, only the latter is
dispatched. -/
theorem service_hook_fanout_correct_witness :
    (service_hook_stage true false none [(2, ["event.alert"])]).1 = [] ∧
    (service_hook_stage true false none [(1, ["event.created"])]).1 =
      [Effect.hookDelivery 1] :=
  ⟨(service_hook_fanout_correct false none [(2, ["event.alert"])] 2).2.1,
   (service_hook_fanout_correct false none [(1, ["event.created"])] 1).2.2⟩

/-- Witness for C10: looking up an unregistered slug raises. -/
theorem plugin_lookup_unprotected_witness :
    plugin_post_process_group [("notify", PyOutcome.ok)] "missing" =
      .error (String.append "KeyError: " "missing") :=
  (plugin_lookup_unprotected [("notify", PyOutcome.ok)] "missing" (by simp)).1

/-- C8: in sampling mode the error-hook decision is one uniform draw
compared against the configured rate — true iff the draw is strictly below
it — with no cache read (the result ignores the cached slot, the feature
gate and the store) and no cache write (the slot is returned untouched);
hence with rate 0 the decision is always false, and at pipeline level no
Error resource-change task is scheduled and the decision cache slot of the
final state equals the initial one. -/
theorem error_hook_sampling_uncached (rate draw : Rat) (cached : Option Nat)
    (orgF hasHook : Bool) (hdraw : 0 ≤ draw) :
    ((_should_send_error_created_hooks true rate draw cached orgF hasHook).2 = cached) ∧
    (∀ cached2 orgF2 hasHook2,
      (_should_send_error_created_hooks true rate draw cached2 orgF2 hasHook2).1 =
        (_should_send_error_created_hooks true rate draw cached orgF hasHook).1) ∧
    ((_should_send_error_created_hooks true rate draw cached orgF hasHook).1 = true ↔
      draw < rate) ∧
    ((_should_send_error_created_hooks true 0 draw cached orgF hasHook).1 = false) ∧
    (∀ env now st event i r s g res, env.useErrorHookSampling = true →
      env.errorHookSampleRate = 0 → env.randomDraw = draw →
      post_process_group env now st event i r s g = .ok res →
      res.state.errorHookCached = st.errorHookCached ∧
      ∀ iid, Effect.resourceChange "Error" iid ∉ res.effects) := by
  have hlt : ¬ draw < (0 : Rat) := not_lt.mpr hdraw
  refine ⟨rfl, fun cached2 orgF2 hasHook2 => rfl, by simp [_should_send_error_created_hooks],
    by simp [_should_send_error_created_hooks, hlt], ?_⟩
  intro env now st event i r s g res hu hr0 hd hok
  have herr : (if event.eventType == "error" then
      _should_send_error_created_hooks env.useErrorHookSampling env.errorHookSampleRate
        env.randomDraw st.errorHookCached env.orgHasEventHooksFeature
        env.orgHasErrorCreatedHook
    else (false, st.errorHookCached)) = (false, st.errorHookCached) := by
    cases he : event.eventType == "error" <;>
      simp [_should_send_error_created_hooks, hu, hr0, hd, hlt]
  cases hchk : check_event_already_post_processed env.clusterConfigured env.redisReachable
      st.redis now event with
  | error msg =>
      rw [post_process_group, hchk] at hok
      exact absurd hok (by simp)
  | ok pr =>
      obtain ⟨redis1, isDup⟩ := pr
      cases isDup with
      | true =>
          rw [post_process_group_dup env now st event i r s g redis1 hchk] at hok
          injection hok with hok
          subst hok
          constructor
          · rfl
          · intro iid
            simp
      | false =>
          obtain ⟨pluginEffs, hpl, _⟩ := plugin_fanout_ok env.plugins
          rw [post_process_group_proceed env now st event i r s g redis1 pluginEffs
            hchk hpl] at hok
          injection hok with hok
          subst hok
          refine ⟨by rw [herr], ?_⟩
          intro iid
          simp only [PipelineResult.effects, List.mem_append, List.mem_singleton, herr]
          push_neg
          refine ⟨⟨⟨⟨⟨⟨⟨⟨?_, ?_⟩, ?_⟩, ?_⟩, ?_⟩, ?_⟩, ?_⟩, ?_⟩, ?_⟩
          · exact capture_stats_no_resource _ _ _ _ _
          · exact snooze_no_resource _ _ _
          · exact owner_no_resource _ _ _ _
          · exact rule_no_resource _ _ _
          · exact hook_stage_no_resource _ _ _ _ _ _
          · simp
          · cases i <;> simp
          · exact plugin_effs_no_resource _ _ hpl _ _
          · simp

/-- Witness for C8 at rate 1/2 and draw 1/4: the cache slot is untouched
and the decision compares the draw against the rate. -/
theorem error_hook_sampling_uncached_witness :
    ((_should_send_error_created_hooks true (1/2) (1/4) (some 1) true true).2 = some 1) ∧
    ((_should_send_error_created_hooks true (1/2) (1/4) (some 1) true true).1 = true ↔
      (1 : Rat)/4 < 1/2) :=
  ⟨(error_hook_sampling_uncached (1/2) (1/4) (some 1) true true (by norm_num)).1,
   (error_hook_sampling_uncached (1/2) (1/4) (some 1) true true (by norm_num)).2.2.1⟩

/-- Filter identity on a conditional resource-change singleton. -/
theorem filter_if_resource (c : Bool) (sender iid : String) :
    (if c then [Effect.resourceChange sender iid] else []).filter isSideEffect =
      (if c then [Effect.resourceChange sender iid] else []) := by
  cases c <;> simp [isSideEffect]

/-- C5: every rule callback and every plugin `post_process` call runs under
the `safe_execute` wrapper, so whatever the callbacks and plugins raise the
pipeline returns normally, and its non-log effects are exactly the stage
effects: one invocation marker per yielded callback, the full hook fanout,
the resource-change notifications, one invocation per registered plugin and
the completion signal — a trace that depends on the callbacks only through
their number and on the plugins only through their slugs, never on whether
they raise; `PluginError` is the designated expected error kind for
plugins, logged as a normal (informational) failure. -/
theorem callback_and_plugin_isolation (env : Env) (now : Nat) (st : PState)
    (event : Event) (i r s g : Bool) (redis1 : List RedisEntry)
    (hchk : check_event_already_post_processed env.clusterConfigured env.redisReachable
      st.redis now event = .ok (redis1, false)) :
    (∃ res, post_process_group env now st event i r s g = .ok res ∧
      res.effects.filter isSideEffect =
        _capture_stats st.group.platform event.size i
          ++ (process_snoozes st.group).2.2
          ++ (handle_owner_assignment (process_snoozes st.group).1 env.autoassign_owner).2
          ++ List.replicate env.ruleCallbacks.length Effect.ruleCallbackRun
          ++ (service_hook_stage env.servicehooksFeature (!env.ruleCallbacks.isEmpty)
               st.serviceHooksCached env.serviceHooks).1
          ++ (if (if event.eventType == "error" then
                   _should_send_error_created_hooks env.useErrorHookSampling
                     env.errorHookSampleRate env.randomDraw st.errorHookCached
                     env.orgHasEventHooksFeature env.orgHasErrorCreatedHook
                  else (false, st.errorHookCached)).1
              then [Effect.resourceChange "Error" event.event_id] else [])
          ++ (if i then [Effect.resourceChange "Group" (toString st.group.id)] else [])
          ++ env.plugins.map (fun p => Effect.pluginPostProcess p.1)
          ++ [Effect.signalSent]) ∧
    (∀ msg, safe_execute true (PyOutcome.pluginError msg) = [Effect.logInfo msg]) := by
  obtain ⟨pluginEffs, hpl, hplf⟩ := plugin_fanout_ok env.plugins
  refine ⟨⟨_, post_process_group_proceed env now st event i r s g redis1 pluginEffs
    hchk hpl, ?_⟩, fun msg => rfl⟩
  simp only [PipelineResult.effects]
  rw [List.filter_append, List.filter_append, List.filter_append, List.filter_append,
      List.filter_append, List.filter_append, List.filter_append, List.filter_append,
      capture_stats_filter, snooze_filter, owner_filter, rule_effects_filter,
      hook_filter, hplf, run_rule_callbacks_fst, filter_if_resource, filter_if_resource]
  simp [isSideEffect]

/-- Witness for C5: with one raising rule callback and one raising plugin,
the pipeline still returns normally. -/
theorem callback_and_plugin_isolation_witness :
    ∃ res, post_process_group
        { sampleEnv with ruleCallbacks := [PyOutcome.otherError "bang"],
                         plugins := [("notify", PyOutcome.pluginError "boom")] }
        0 sampleState sampleEvent true false false false = .ok res ∧
      res.effects.filter isSideEffect =
        _capture_stats sampleState.group.platform sampleEvent.size true
          ++ (process_snoozes sampleState.group).2.2
          ++ (handle_owner_assignment (process_snoozes sampleState.group).1 (some 5)).2
          ++ List.replicate 1 Effect.ruleCallbackRun
          ++ (service_hook_stage true true none [(7, ["event.created"])]).1
          ++ [Effect.resourceChange "Error" sampleEvent.event_id]
          ++ [Effect.resourceChange "Group" (toString sampleState.group.id)]
          ++ [Effect.pluginPostProcess "notify"]
          ++ [Effect.signalSent] := by
  obtain ⟨⟨res, hok, heff⟩, _⟩ := callback_and_plugin_isolation
    { sampleEnv with ruleCallbacks := [PyOutcome.otherError "bang"],
                     plugins := [("notify", PyOutcome.pluginError "boom")] }
    0 sampleState sampleEvent true false false false _
    (check_fresh sampleState.redis 0 sampleEvent (by decide))
  refine ⟨res, hok, ?_⟩
  rw [heff]
  rfl

/-- C1: with the dedup cluster configured and reachable, a first
`post_process_group` run on a fresh `(projectId, eventId)` claims the key
`pp:{projectId}/{eventId}`; a second run on the same pair within the 3600s
TTL finds the key live, logs the skip as informational and returns
immediately: its result state is exactly the state it was given (zero store
mutations) and its only effect is the skip log line (zero metrics, zero
notifications) — the pipeline's side effects happen exactly once across
the two calls. -/
theorem dedup_second_call_skips (env env2 : Env) (t1 t2 : Nat) (st : PState)
    (event : Event) (i1 r1 s1 g1 i2 r2 s2 g2 : Bool)
    (hc1 : env.clusterConfigured = true) (hr1 : env.redisReachable = true)
    (hc2 : env2.clusterConfigured = true) (hr2 : env2.redisReachable = true)
    (hfresh : keyLive st.redis t1 (dedup_key event.project_id event.event_id) = false)
    (ht : t2 < t1 + 60 * 60) :
    ∃ res1 : PipelineResult,
      post_process_group env t1 st event i1 r1 s1 g1 = .ok res1 ∧
      keyLive res1.state.redis t2 (dedup_key event.project_id event.event_id) = true ∧
      post_process_group env2 t2 res1.state event i2 r2 s2 g2 =
        .ok ⟨res1.state,
             [Effect.skippedLog event.project_id event.event_id "duplicate"]⟩ ∧
      ([Effect.skippedLog event.project_id event.event_id "duplicate"]).filter
        isSideEffect = [] := by
  obtain ⟨pluginEffs, hpl, _⟩ := plugin_fanout_ok env.plugins
  have hchk1 : check_event_already_post_processed env.clusterConfigured env.redisReachable
      st.redis t1 event =
        .ok (⟨dedup_key event.project_id event.event_id, t1 + 60 * 60⟩ ::
              st.redis.filter
                (fun e => !(e.key == dedup_key event.project_id event.event_id)),
             false) := by
    rw [hc1, hr1]
    exact check_fresh st.redis t1 event hfresh
  have hrun1 := post_process_group_proceed env t1 st event i1 r1 s1 g1 _ pluginEffs
    hchk1 hpl
  refine ⟨_, hrun1, ?_, ?_, rfl⟩
  · simp [keyLive, ht]
  · have hlive : keyLive
        (⟨dedup_key event.project_id event.event_id, t1 + 60 * 60⟩ ::
          st.redis.filter
            (fun e => !(e.key == dedup_key event.project_id event.event_id)))
        t2 (dedup_key event.project_id event.event_id) = true := by
      simp [keyLive, ht]
    have hchk2 : check_event_already_post_processed env2.clusterConfigured
        env2.redisReachable
        (⟨dedup_key event.project_id event.event_id, t1 + 60 * 60⟩ ::
          st.redis.filter
            (fun e => !(e.key == dedup_key event.project_id event.event_id)))
        t2 event =
          .ok (⟨dedup_key event.project_id event.event_id, t1 + 60 * 60⟩ ::
                st.redis.filter
                  (fun e => !(e.key == dedup_key event.project_id event.event_id)),
               true) := by
      rw [hc2, hr2]
      exact check_dup _ t2 event hlive
    exact post_process_group_dup env2 t2 _ event i2 r2 s2 g2 _ hchk2

/-- Witness for C1: first call at t=0 on an empty redis, second call at
t=10 on the resulting state skips with only the log line. -/
theorem dedup_second_call_skips_witness :
    ∃ res1 : PipelineResult,
      post_process_group sampleEnv 0 sampleState sampleEvent true false false false =
        .ok res1 ∧
      keyLive res1.state.redis 10
        (dedup_key sampleEvent.project_id sampleEvent.event_id) = true ∧
      post_process_group sampleEnv 10 res1.state sampleEvent false false false false =
        .ok ⟨res1.state,
             [Effect.skippedLog sampleEvent.project_id sampleEvent.event_id
               "duplicate"]⟩ ∧
      ([Effect.skippedLog sampleEvent.project_id sampleEvent.event_id
        "duplicate"]).filter isSideEffect = [] :=
  dedup_second_call_skips sampleEnv sampleEnv 0 10 sampleState sampleEvent
    true false false false false false false false rfl rfl rfl rfl (by decide) (by decide)

/-- C6 counterexample: with a dedup backend configured but unreachable, the
guard raises out of the pipeline at a concrete input — the call is not
treated as claimed, no warning is logged, and no further stage runs, so the
guard does not fail open. -/
theorem dedup_unreachable_raises_cex :
    post_process_group { sampleEnv with redisReachable := false } 0 sampleState
        sampleEvent true false false false = .error "redis connection error" := rfl

/-- C6 (amended): a configured but unreachable dedup backend propagates its
error out of `check_event_already_post_processed` and out of the whole
pipeline (no fail-open, no warning log); with no backend configured the
guard is disabled entirely — every call is treated as claimed and the
pipeline runs all remaining stages. -/
theorem dedup_backend_failure_modes (redis : List RedisEntry) (now : Nat)
    (event : Event) (reach : Bool) (env : Env) (st : PState) (i r s g : Bool) :
    (check_event_already_post_processed true false redis now event =
      .error "redis connection error") ∧
    (check_event_already_post_processed false reach redis now event =
      .ok (redis, false)) ∧
    (env.clusterConfigured = true → env.redisReachable = false →
      post_process_group env now st event i r s g = .error "redis connection error") ∧
    (env.clusterConfigured = false →
      ∃ res, post_process_group env now st event i r s g = .ok res ∧
        Effect.signalSent ∈ res.effects) := by
  refine ⟨rfl, rfl, ?_, ?_⟩
  · intro h1 h2
    have hchk : check_event_already_post_processed env.clusterConfigured
        env.redisReachable st.redis now event = .error "redis connection error" := by
      rw [h1, h2]
      rfl
    rw [post_process_group, hchk]
  · intro h1
    obtain ⟨pluginEffs, hpl, _⟩ := plugin_fanout_ok env.plugins
    have hchk : check_event_already_post_processed env.clusterConfigured
        env.redisReachable st.redis now event = .ok (st.redis, false) := by
      rw [h1]
      rfl
    refine ⟨_, post_process_group_proceed env now st event i r s g _ pluginEffs
      hchk hpl, ?_⟩
    simp

/-- Witness for C6: at a concrete unreachable configuration the pipeline
raises, and with no backend configured it completes all stages. -/
theorem dedup_backend_failure_modes_witness :
    (post_process_group { sampleEnv with redisReachable := false } 5 sampleState
      sampleEvent true true true true = .error "redis connection error") ∧
    (∃ res, post_process_group { sampleEnv with clusterConfigured := false } 5
        sampleState sampleEvent true true true true = .ok res ∧
      Effect.signalSent ∈ res.effects) :=
  ⟨(dedup_backend_failure_modes [] 5 sampleEvent true
      { sampleEnv with redisReachable := false } sampleState true true true true).2.2.1
      rfl rfl,
   (dedup_backend_failure_modes [] 5 sampleEvent true
      { sampleEnv with clusterConfigured := false } sampleState true true true true).2.2.2
      rfl⟩

end Sentry
